import Mathlib

set_option maxRecDepth 4000
set_option linter.unnecessarySeqFocus false
set_option linter.unusedVariables false

/-!
Verification of the WebSocket subscription client of the
`albatross-rpc-client-ts` repository (`src/client/web-socket.ts`).

The development shallowly embeds the `WebSocketClient` class, its
`subscribe` method, the `Subscription` handle it returns, and the
`onopen`/`onclose`/`onerror`/`onNotification` handlers it wires, as an
explicit event-driven state machine: the single-threaded event loop is
modelled by a `step` function consuming one dispatched event at a time,
and a trace is a list of events folded over an initial world.

The transport and JSON-RPC client objects (`WebSocketTransport`,
`Client` from `@open-rpc/client-js`) are external collaborators; their
contract is modelled as: a handshake either resolves with a
subscription id or rejects, an open/close/error event can be delivered
for a wired session's transport, and after `client.close()` has been
requested the transport dispatches no further notification or error
events for that session (notification events on a close-requested or
closed session are no-ops in the model).
-/

namespace AlbatrossWS

/-! ## URL normalization (constructor, lines 62-66)

`constructor(url)` does:
```
const wsUrl = new URL(url.replace(/^http/, 'ws'))
wsUrl.pathname = '/ws'
this.url = wsUrl
```
Strings are modelled as `List Char`.  `replace(/^http/, 'ws')` replaces
the four characters `http` at the very start of the string (and nothing
else, since the regex is anchored and `replace` rewrites at most one
match).  `new URL` is modelled for URLs of the shape
`scheme://host path` with no userinfo, query or fragment and no
percent- or case-normalization; the theorems about it restrict their
inputs to that domain, where the model is exact. -/

/-- `url.replace(/^http/, 'ws')` on a string: if the string starts with
`http`, those four characters become `ws`; otherwise unchanged. -/
def replaceLeadingHttp (s : List Char) : List Char :=
  if s.take 4 = "http".toList then 'w' :: 's' :: s.drop 4 else s

/-- Split a string at the first occurrence of `://`: returns the part
before and the part after, or `none` when there is no `://` (where
`new URL` would throw). -/
def splitAtSchemeSep : List Char → Option (List Char × List Char)
  | [] => none
  | c :: rest =>
    if c = ':' ∧ rest.take 2 = ['/', '/'] then some ([], rest.drop 2)
    else
      match splitAtSchemeSep rest with
      | some (pre, post) => some (c :: pre, post)
      | none => none

/-- Split a string at the first `/`: the part before is the host, the
part from the `/` on is the pathname. -/
def splitAtSlash : List Char → List Char × List Char
  | [] => ([], [])
  | c :: rest =>
    if c = '/' then ([], c :: rest)
    else
      let p := splitAtSlash rest
      (c :: p.1, p.2)

/-- The URL stored by the `WebSocketClient` constructor, rendered back
to a string: leading `http` replaced by `ws`, then the URL is parsed
and its pathname overwritten with `/ws`.  `none` models the `new URL`
constructor throwing on an input with no `://`. -/
def wsClientUrl (raw : List Char) : Option (List Char) :=
  match splitAtSchemeSep (replaceLeadingHttp raw) with
  | some (scheme, rest) =>
      some (scheme ++ ':' :: '/' :: '/' :: ((splitAtSlash rest).1 ++ "/ws".toList))
  | none => none

/-! ## Options and reconnect settings (lines 22-46, 85-96) -/

/-- A JSON-RPC request: `RequestArguments` (method plus positional
params).  Params are kept as strings; the client never inspects them. -/
structure Request where
  method : String
  params : List String
  deriving DecidableEq

/-- The `retries` field of the `autoReconnect` object: a number (an
`Int`, negative meaning unbounded) or a zero-argument predicate.  The
predicate is modelled as a function of its own invocation count, so a
stateful predicate can be expressed. -/
inductive RetriesSetting where
  | num (k : Int)
  | fn (f : Nat → Bool)

/-- The object form of `autoReconnect`; `hasOnFailed` records whether
the optional `onFailed` callback is present. -/
structure ReconnectObj where
  retries : Option RetriesSetting
  delay : Option Nat
  hasOnFailed : Bool

/-- `autoReconnect`: absent/false, `true`, or an object. -/
inductive AutoReconnect where
  | off
  | enabled
  | custom (o : ReconnectObj)

/-- `StreamOptions` over a notification payload type `D`.  `once` and
`timeout` are required by the TypeScript interface; `filter`,
`onError` and `autoReconnect` are optional.  Callbacks are modelled by
presence flags; their invocations are recorded in the action log. -/
structure StreamOptions (D : Type) where
  once : Bool
  filter : Option (D → Bool)
  timeout : Nat
  hasOnError : Bool
  autoReconnect : AutoReconnect

/-- `WS_DEFAULT_OPTIONS`: `{ once: false, filter: () => true,
timeout: 5000 }` (no `onError`, no `autoReconnect`). -/
def WS_DEFAULT_OPTIONS (D : Type) : StreamOptions D :=
  { once := false
    filter := some fun _ => true
    timeout := 5000
    hasOnError := false
    autoReconnect := .off }

/-- `{ ...WS_DEFAULT_OPTIONS, ...userOptions }` (lines 85-88): every
field present on `userOptions` overrides the default; `once` and
`timeout` are always present on `userOptions`, so only an absent
`filter` falls back to the accept-all default.  (A caller passing an
explicit `undefined` filter would override the default with
`undefined`; the notification handler treats that identically to the
accept-all filter, see the `filter &&` guard below.) -/
def mergeOptions {D : Type} (u : StreamOptions D) : StreamOptions D :=
  { once := u.once
    filter := match u.filter with
      | some f => some f
      | none => (WS_DEFAULT_OPTIONS D).filter
    timeout := u.timeout
    hasOnError := u.hasOnError
    autoReconnect := u.autoReconnect }

/-- Lines 90-96: `autoReconnect` object ↦ itself, `true` ↦ `{}`,
anything else ↦ `undefined`. -/
def reconnectSettingsOf : AutoReconnect → Option ReconnectObj
  | .custom o => some o
  | .enabled => some { retries := none, delay := none, hasOnFailed := false }
  | .off => none

/-! ## The event-driven connection model -/

/-- The descriptive error messages the client constructs. -/
inductive ErrMsg where
  | failedToReconnect
  | closedUnexpectedly
  | wsEvent
  deriving DecidableEq

/-- Observable actions, recorded in order of occurrence. -/
inductive Action (D : Type) where
  /-- `subscribe(request, options)` was invoked, creating a
  `WebSocketTransport` bound to `url` (line 82); `isReconnect` is true
  when the invocation came from the reconnect timer callback. -/
  | subscribeStarted (req : Request) (isReconnect : Bool) (url : List Char)
  /-- A reconnect was scheduled: `setTimeout` with id `tid` and the
  given delay, capturing `req` for replay (lines 167-175). -/
  | reconnectScheduled (tid : Nat) (delay : Nat) (req : Request)
  /-- `reconnectSettings.onFailed?.()` fired from session `i`'s close
  handler (line 178). -/
  | onFailedCalled (i : Nat)
  /-- `options.onError?.(new Error(...))` fired. -/
  | onErrorCalled (msg : ErrMsg)
  /-- The callback registered by `next` received a notification result
  from session `i` (line 119). -/
  | cbResult (i : Nat) (d : D)
  /-- The callback registered by `next` received a JSON-RPC error from
  session `i` (line 108). -/
  | cbError (i : Nat) (e : Nat)
  /-- `Subscription.close()` was invoked on session `i`'s handle. -/
  | closeCalled (i : Nat)

/-- A `subscribe` invocation whose `await client.request(...)`
(line 101) has not yet settled. -/
structure PendingSub (D : Type) where
  request : Request
  userOptions : StreamOptions D
  isReconnect : Bool
  url : List Char

/-- Per-session state wired once the handshake resolved: the closures
of the returned `Subscription` and the installed handlers capture
`request`, `userOptions` and `subscriptionId` by value.
`closeRequested` means `client.close()` has been invoked on this
session's client (from `Subscription.close` or the `once` path);
`closed` means the transport's `onclose` already fired.  `fnCalls`
counts invocations of a predicate-valued `retries`. -/
structure Session (D : Type) where
  request : Request
  userOptions : StreamOptions D
  url : List Char
  subscriptionId : Nat
  nextCalled : Bool
  closeRequested : Bool
  closed : Bool
  fnCalls : Nat

/-- A pending `setTimeout` scheduled by the close handler, carrying
the captured `request` and `userOptions` for replay. -/
structure TimerM (D : Type) where
  id : Nat
  delay : Nat
  request : Request
  userOptions : StreamOptions D

/-- The mutable instance fields of `WebSocketClient` (lines 53-60).
These live on the client object itself, not on any per-subscription
structure. -/
structure ClientState where
  url : List Char
  isOpen : Bool
  explicitlyClosed : Bool
  retriesCount : Nat
  reconnectTimer : Option Nat

/-- The whole world: one `WebSocketClient` plus its pending
subscribes, wired sessions, pending timers and the action log. -/
structure World (D : Type) where
  client : ClientState
  pendings : List (PendingSub D)
  sessions : List (Session D)
  timers : List (TimerM D)
  nextTimerId : Nat
  log : List (Action D)

/-- Events the single-threaded event loop can dispatch. -/
inductive Event (D : Type) where
  /-- A consumer calls `client.subscribe(r, u)`. -/
  | callSubscribe (r : Request) (u : StreamOptions D)
  /-- Pending subscribe `j`: `await client.request(...)` resolves with
  subscription id `sid` (lines 101-103 run, handlers get wired). -/
  | handshakeResolve (j : Nat) (sid : Nat)
  /-- Pending subscribe `j` rejects (e.g. handshake timeout). -/
  | handshakeReject (j : Nat)
  /-- `transport.connection.onopen` fires for session `i`. -/
  | connOpen (i : Nat)
  /-- `transport.connection.onclose` fires for session `i`. -/
  | connClose (i : Nat)
  /-- `transport.connection.onerror` fires for session `i`. -/
  | connError (i : Nat)
  /-- The pending reconnect timer with id `tid` fires. -/
  | timerFire (tid : Nat)
  /-- The consumer calls `next(callback)` on session `i`'s handle. -/
  | callNext (i : Nat)
  /-- The consumer calls `close()` on session `i`'s handle. -/
  | callClose (i : Nat)
  /-- The node pushes a notification with payload `d` to session `i`. -/
  | notif (i : Nat) (d : D)
  /-- The node pushes a JSON-RPC level error `e` to session `i`. -/
  | protoErr (i : Nat) (e : Nat)

/-- Lines 164-175 of the close handler:
`this.retriesCount++; this.clearReconnectTimer();
this.reconnectTimer = setTimeout(() => this.subscribe(request, userOptions)..., delay)`.
`clearTimeout` removes the previously tracked timer (if any, and if it
is still pending); the new timer captures the session's `request` and
`userOptions`. -/
def scheduleReconnect {D : Type} (w : World D) (s : Session D) (delay : Nat) :
    World D :=
  let timers1 :=
    match w.client.reconnectTimer with
    | some tid => w.timers.filter fun t => t.id != tid
    | none => w.timers
  { w with
    client := { w.client with
      retriesCount := w.client.retriesCount + 1
      reconnectTimer := some w.nextTimerId }
    timers := timers1 ++ [⟨w.nextTimerId, delay, s.request, s.userOptions⟩]
    nextTimerId := w.nextTimerId + 1
    log := w.log ++ [.reconnectScheduled w.nextTimerId delay s.request] }

/-- `transport.connection.onclose` for session `i` (lines 146-187):
sets `this.isOpen = false`; if `this.explicitlyClosed` is false it
consults the reconnect settings: schedule a retry while permitted,
otherwise `onFailed?.()`; with no settings, `onError?.(new
Error('WebSocket connection closed unexpectedly'))`. -/
def handleClose {D : Type} (w : World D) (i : Nat) : World D :=
  match w.sessions[i]? with
  | none => w
  | some s =>
    if s.closed then w
    else
      let base : World D :=
        { w with
          client := { w.client with isOpen := false }
          sessions := w.sessions.set i { s with closed := true } }
      if w.client.explicitlyClosed then base
      else
        let opts := mergeOptions s.userOptions
        match reconnectSettingsOf opts.autoReconnect with
        | some rs =>
          let delay := rs.delay.getD 1000
          match rs.retries.getD (.num (-1)) with
          | .num k =>
            if k < 0 ∨ (w.client.retriesCount : Int) < k then
              scheduleReconnect base s delay
            else if rs.hasOnFailed then
              { base with log := base.log ++ [.onFailedCalled i] }
            else base
          | .fn f =>
            let base2 : World D :=
              { w with
                client := { w.client with isOpen := false }
                sessions :=
                  w.sessions.set i { s with closed := true, fnCalls := s.fnCalls + 1 } }
            if f s.fnCalls then scheduleReconnect base2 s delay
            else if rs.hasOnFailed then
              { base2 with log := base2.log ++ [.onFailedCalled i] }
            else base2
        | none =>
          if opts.hasOnError then
            { base with log := base.log ++ [.onErrorCalled .closedUnexpectedly] }
          else base

/-- One step of the event loop. -/
def step {D : Type} (w : World D) : Event D → World D
  | .callSubscribe r u =>
    { w with
      pendings := w.pendings ++ [⟨r, u, false, w.client.url⟩]
      log := w.log ++ [.subscribeStarted r false w.client.url] }
  | .handshakeResolve j sid =>
    match w.pendings[j]? with
    | none => w
    | some p =>
      { w with
        pendings := w.pendings.eraseIdx j
        client := { w.client with explicitlyClosed := false, retriesCount := 0 }
        sessions := w.sessions ++
          [{ request := p.request
             userOptions := p.userOptions
             url := p.url
             subscriptionId := sid
             nextCalled := false
             closeRequested := false
             closed := false
             fnCalls := 0 }] }
  | .handshakeReject j =>
    match w.pendings[j]? with
    | none => w
    | some p =>
      let w1 := { w with pendings := w.pendings.eraseIdx j }
      if p.isReconnect && (mergeOptions p.userOptions).hasOnError then
        { w1 with log := w1.log ++ [.onErrorCalled .failedToReconnect] }
      else w1
  | .connOpen i =>
    match w.sessions[i]? with
    | none => w
    | some s =>
      if s.closed then w
      else { w with client := { w.client with isOpen := true, retriesCount := 0 } }
  | .connClose i => handleClose w i
  | .connError i =>
    match w.sessions[i]? with
    | none => w
    | some s =>
      if s.closed then w
      else
        let w1 := { w with client := { w.client with isOpen := false } }
        if (mergeOptions s.userOptions).hasOnError then
          { w1 with log := w1.log ++ [.onErrorCalled .wsEvent] }
        else w1
  | .timerFire tid =>
    match w.timers.find? (fun t => t.id == tid) with
    | none => w
    | some t =>
      { w with
        timers := w.timers.filter fun x => x.id != tid
        pendings := w.pendings ++ [⟨t.request, t.userOptions, true, w.client.url⟩]
        log := w.log ++ [.subscribeStarted t.request true w.client.url] }
  | .callNext i =>
    match w.sessions[i]? with
    | none => w
    | some s => { w with sessions := w.sessions.set i { s with nextCalled := true } }
  | .callClose i =>
    match w.sessions[i]? with
    | none => w
    | some s =>
      { w with
        client := { w.client with explicitlyClosed := true }
        sessions := w.sessions.set i { s with closeRequested := true }
        log := w.log ++ [.closeCalled i] }
  | .notif i d =>
    match w.sessions[i]? with
    | none => w
    | some s =>
      if s.nextCalled && !s.closeRequested && !s.closed then
        let opts := mergeOptions s.userOptions
        let accepted :=
          match opts.filter with
          | some f => f d
          | none => true
        if accepted then
          let w1 := { w with log := w.log ++ [.cbResult i d] }
          if opts.once then
            { w1 with sessions := w1.sessions.set i { s with closeRequested := true } }
          else w1
        else w
      else w
  | .protoErr i e =>
    match w.sessions[i]? with
    | none => w
    | some s =>
      if s.nextCalled && !s.closeRequested && !s.closed then
        { w with log := w.log ++ [.cbError i e] }
      else w

/-- A freshly constructed `WebSocketClient` whose stored URL is
`url`, with no sessions, no pending subscribes, no timers. -/
def initWorld {D : Type} (url : List Char) : World D :=
  { client :=
      { url := url
        isOpen := false
        explicitlyClosed := false
        retriesCount := 0
        reconnectTimer := none }
    pendings := []
    sessions := []
    timers := []
    nextTimerId := 0
    log := [] }

/-- Run a trace of events. -/
def run {D : Type} (w : World D) (evs : List (Event D)) : World D :=
  evs.foldl step w

/-- `Subscription.getSubscriptionId` of the handle returned for
session `i`: the closure returns the captured `subscriptionId`
(line 130). -/
def getSubscriptionId {D : Type} (w : World D) (i : Nat) : Option Nat :=
  (w.sessions[i]?).map (·.subscriptionId)

/-! ## Log classifiers (used to count observable actions in traces) -/

/-- Is this action a `subscribe` invocation coming from the reconnect
timer callback? -/
def Action.isReconnectSubscribe {D : Type} : Action D → Bool
  | .subscribeStarted _ true _ => true
  | _ => false

/-- Is this action the scheduling of a reconnect timer? -/
def Action.isSchedule {D : Type} : Action D → Bool
  | .reconnectScheduled _ _ _ => true
  | _ => false

/-- Is this action an `onFailed` invocation? -/
def Action.isOnFailedA {D : Type} : Action D → Bool
  | .onFailedCalled _ => true
  | _ => false

/-- Is this action an `onError` invocation? -/
def Action.isOnErrorA {D : Type} : Action D → Bool
  | .onErrorCalled _ => true
  | _ => false

/-- Is this action a notification delivery to the registered
callback of session `i`? -/
def Action.isCbResultFor {D : Type} (i : Nat) : Action D → Bool
  | .cbResult j _ => j == i
  | _ => false

/-- Is this action a `Subscription.close()` call? -/
def Action.isCloseCalledA {D : Type} : Action D → Bool
  | .closeCalled _ => true
  | _ => false

/-! ## Concrete fixtures and traces (used by witnesses and
counterexamples) -/

/-- Concrete instance data for the C10 witness. -/
def uC10 : StreamOptions Nat :=
  { once := false, filter := none, timeout := 5000, hasOnError := false
    autoReconnect := .off }

/-- Concrete request for the C10 witness. -/
def rC10 : Request := ⟨"subscribeForHeadBlock", []⟩

/-- Concrete pending reconnect timer for the C10 witness. -/
def tC10 : TimerM Nat := ⟨0, 1000, rC10, uC10⟩

/-- Concrete world with a pending reconnect timer for the C10 witness. -/
def wtC10 : World Nat :=
  { client :=
      { url := "ws://localhost:8648/ws".toList
        isOpen := false
        explicitlyClosed := false
        retriesCount := 1
        reconnectTimer := some 0 }
    pendings := []
    sessions := []
    timers := [tC10]
    nextTimerId := 1
    log := [] }

/-- A concrete subscription request. -/
def reqA : Request := ⟨"subscribeForHeadBlock", ["true"]⟩

/-- A second concrete subscription request. -/
def reqB : Request := ⟨"subscribeForValidatorElectionByAddress", ["NQ07"]⟩

/-- Concrete options: `autoReconnect: true`, nothing else. -/
def optEnabled : StreamOptions Nat :=
  { once := false, filter := none, timeout := 5000, hasOnError := false
    autoReconnect := .enabled }

/-- A concrete wired session using `optEnabled`. -/
def sessEnabled : Session Nat :=
  { request := reqA
    userOptions := optEnabled
    url := []
    subscriptionId := 7
    nextCalled := false
    closeRequested := false
    closed := false
    fnCalls := 0 }

/-- A concrete world holding `sessEnabled` and one pending reconnect
timer. -/
def wFix1 : World Nat :=
  { client :=
      { url := []
        isOpen := false
        explicitlyClosed := false
        retriesCount := 1
        reconnectTimer := some 0 }
    pendings := []
    sessions := [sessEnabled]
    timers := [⟨0, 1000, reqA, optEnabled⟩]
    nextTimerId := 1
    log := [] }

/-! ## Per-event projection lemmas (shared helpers) -/

/-- Trace refuting claim C1 as stated: subscribe, handshake, open,
unexpected close (schedules timer 0), then `close()`. -/
def evsC1 : List (Event Nat) :=
  [.callSubscribe reqA optEnabled, .handshakeResolve 0 7, .connOpen 0,
   .connClose 0, .callClose 0]

/-- Concrete world for the C7 witness: flag set, one wired session,
one pending subscribe. -/
def wFix7 : World Nat :=
  { client :=
      { url := []
        isOpen := false
        explicitlyClosed := true
        retriesCount := 0
        reconnectTimer := none }
    pendings := [⟨reqB, optEnabled, false, []⟩]
    sessions := [sessEnabled]
    timers := []
    nextTimerId := 0
    log := [] }

/-- Trace refuting claim C7 as stated: close session 0, then a second
`subscribe` on the same client resolves (clearing the flag), then
session 0's own transport close arrives and schedules a reconnect for
the closed session. -/
def evsC7 : List (Event Nat) :=
  [.callSubscribe reqA optEnabled, .handshakeResolve 0 4, .connOpen 0,
   .callClose 0, .callSubscribe reqA optEnabled, .handshakeResolve 0 8,
   .connClose 0]

/-- A second wired session on the same client, for the C9 witness. -/
def sessEnabledB : Session Nat :=
  { request := reqB
    userOptions := optEnabled
    url := []
    subscriptionId := 8
    nextCalled := false
    closeRequested := false
    closed := false
    fnCalls := 0 }

/-- Concrete world with two live sessions on one client. -/
def wFix9 : World Nat :=
  { client :=
      { url := []
        isOpen := true
        explicitlyClosed := false
        retriesCount := 0
        reconnectTimer := none }
    pendings := []
    sessions := [sessEnabled, sessEnabledB]
    timers := []
    nextTimerId := 0
    log := [] }

/-- Trace for C9: two subscribe calls on one client, `close()` on the
first handle, then the second session closes unexpectedly. -/
def evsC9close : List (Event Nat) :=
  [.callSubscribe reqA optEnabled, .handshakeResolve 0 1,
   .callSubscribe reqB optEnabled, .handshakeResolve 0 2,
   .callClose 0, .connClose 1]

/-- Same trace without the `close()` on the first handle. -/
def evsC9noclose : List (Event Nat) :=
  [.callSubscribe reqA optEnabled, .handshakeResolve 0 1,
   .callSubscribe reqB optEnabled, .handshakeResolve 0 2,
   .connClose 1]

/-- Concrete world for the C2 witness: one live session using
`optEnabled`, nothing pending. -/
def wFix2 : World Nat :=
  { client :=
      { url := []
        isOpen := true
        explicitlyClosed := false
        retriesCount := 0
        reconnectTimer := none }
    pendings := []
    sessions := [sessEnabled]
    timers := []
    nextTimerId := 5
    log := [] }

/-- Trace for C2: handshake yields id 7, unexpected close, timer
fires, reconnect handshake yields id 9. -/
def evsC2 : List (Event Nat) :=
  [.callSubscribe reqA optEnabled, .handshakeResolve 0 7, .connOpen 0,
   .connClose 0, .timerFire 0, .handshakeResolve 0 9]

/-- Options with `autoReconnect: { retries: 2, delay: 10, onFailed }`. -/
def optRetries2 : StreamOptions Nat :=
  { once := false, filter := none, timeout := 5000, hasOnError := false
    autoReconnect := .custom ⟨some (.num 2), some 10, true⟩ }

/-- A wired session using `optRetries2`. -/
def sessRetries : Session Nat :=
  { request := reqA
    userOptions := optRetries2
    url := []
    subscriptionId := 3
    nextCalled := false
    closeRequested := false
    closed := false
    fnCalls := 0 }

/-- World with the retry counter already at the bound. -/
def wFix3a : World Nat :=
  { client :=
      { url := []
        isOpen := true
        explicitlyClosed := false
        retriesCount := 2
        reconnectTimer := none }
    pendings := [⟨reqB, optEnabled, false, []⟩]
    sessions := [sessRetries]
    timers := []
    nextTimerId := 0
    log := [] }

/-- World with the retry counter still below the bound. -/
def wFix3b : World Nat :=
  { client :=
      { url := []
        isOpen := true
        explicitlyClosed := false
        retriesCount := 0
        reconnectTimer := none }
    pendings := [⟨reqB, optEnabled, false, []⟩]
    sessions := [sessRetries]
    timers := []
    nextTimerId := 0
    log := [] }

/-- Trace for C3: `retries = 2`, three unexpected closes, each
reconnect handshake succeeding in between. -/
def evsC3 : List (Event Nat) :=
  [.callSubscribe reqA optRetries2, .handshakeResolve 0 10, .connOpen 0,
   .connClose 0, .timerFire 0, .handshakeResolve 0 11, .connOpen 1,
   .connClose 1, .timerFire 1, .handshakeResolve 0 12, .connOpen 2,
   .connClose 2]

/-- Options with `autoReconnect: { retries: 0 }` (no `onFailed`) and a
configured `onError`. -/
def optRetries0 : StreamOptions Nat :=
  { once := false, filter := none, timeout := 5000, hasOnError := true
    autoReconnect := .custom ⟨some (.num 0), none, false⟩ }

/-- A wired session using `optRetries0`. -/
def sessRetries0 : Session Nat :=
  { request := reqA
    userOptions := optRetries0
    url := []
    subscriptionId := 5
    nextCalled := false
    closeRequested := false
    closed := false
    fnCalls := 0 }

/-- World for the C4 witness. -/
def wFix4 : World Nat :=
  { client :=
      { url := []
        isOpen := true
        explicitlyClosed := false
        retriesCount := 0
        reconnectTimer := none }
    pendings := []
    sessions := [sessRetries0]
    timers := []
    nextTimerId := 0
    log := [] }

/-- Trace for C4: `retries = 0`, `onFailed` absent, `onError`
configured, one unexpected close. -/
def evsC4 : List (Event Nat) :=
  [.callSubscribe reqA optRetries0, .handshakeResolve 0 5, .connOpen 0,
   .connClose 0]

/-- Options with `once: true` and `autoReconnect: true`. -/
def optOnce : StreamOptions Nat :=
  { once := true, filter := none, timeout := 5000, hasOnError := false
    autoReconnect := .enabled }

/-- A wired session using `optOnce` with a registered callback. -/
def sessOnce : Session Nat :=
  { request := reqA
    userOptions := optOnce
    url := []
    subscriptionId := 3
    nextCalled := true
    closeRequested := false
    closed := false
    fnCalls := 0 }

/-- World for the C5 witness. -/
def wFix5 : World Nat :=
  { client :=
      { url := []
        isOpen := true
        explicitlyClosed := false
        retriesCount := 0
        reconnectTimer := none }
    pendings := []
    sessions := [sessOnce]
    timers := []
    nextTimerId := 0
    log := [] }

/-- Trace for C5: `once = true` with `autoReconnect: true`; an
accepted notification, then the resulting transport close. -/
def evsC5 : List (Event Nat) :=
  [.callSubscribe reqA optOnce, .handshakeResolve 0 3, .connOpen 0,
   .callNext 0, .notif 0 42, .connClose 0]

/-- A filter accepting only payloads above 10. -/
def filterGt10 : Nat → Bool := fun x => decide (10 < x)

/-- Options with the `filterGt10` filter. -/
def optFiltered : StreamOptions Nat :=
  { once := false, filter := some filterGt10, timeout := 5000
    hasOnError := false, autoReconnect := .off }

/-- A wired session using `optFiltered` with a registered callback. -/
def sessFiltered : Session Nat :=
  { request := reqA
    userOptions := optFiltered
    url := []
    subscriptionId := 4
    nextCalled := true
    closeRequested := false
    closed := false
    fnCalls := 0 }

/-- World for the filtered half of the C6 witness (also used for C8). -/
def wFix6 : World Nat :=
  { client :=
      { url := []
        isOpen := true
        explicitlyClosed := false
        retriesCount := 0
        reconnectTimer := none }
    pendings := []
    sessions := [sessFiltered]
    timers := []
    nextTimerId := 0
    log := [] }

/-- A session with the default (absent) filter and a registered
callback. -/
def sessNext : Session Nat :=
  { request := reqA
    userOptions := optEnabled
    url := []
    subscriptionId := 7
    nextCalled := true
    closeRequested := false
    closed := false
    fnCalls := 0 }

/-- World for the default-filter half of the C6 witness. -/
def wFix6b : World Nat :=
  { client :=
      { url := []
        isOpen := true
        explicitlyClosed := false
        retriesCount := 0
        reconnectTimer := none }
    pendings := []
    sessions := [sessNext]
    timers := []
    nextTimerId := 0
    log := [] }

/-! ## Helper lemmas -/

/-- `splitAtSchemeSep` splits at the separator when the part before it
contains no `:`. -/
theorem splitAtSchemeSep_append (s rest : List Char) (h : ':' ∉ s) :
    splitAtSchemeSep (s ++ ':' :: '/' :: '/' :: rest) = some (s, rest) := by
  induction s with
  | nil => simp [splitAtSchemeSep]
  | cons a s ih =>
    have ha : ¬(a = ':') := fun hc => h (by simp [hc])
    simp only [List.cons_append, splitAtSchemeSep]
    rw [if_neg (by rintro ⟨hc, -⟩; exact ha hc)]
    simp only [List.append_eq]
    rw [ih (fun hm => h (List.mem_cons_of_mem a hm))]

/-- `splitAtSlash` splits host from pathname when the host contains no
`/` and the pathname is empty or starts with `/`. -/
theorem splitAtSlash_append (host path : List Char) (h : '/' ∉ host)
    (hp : path = [] ∨ path.take 1 = ['/']) :
    splitAtSlash (host ++ path) = (host, path) := by
  induction host with
  | nil =>
    rcases hp with rfl | hp
    · simp [splitAtSlash]
    · cases path with
      | nil => simp [splitAtSlash]
      | cons c p =>
        have hc : c = '/' := by simpa using hp
        subst hc
        simp [splitAtSlash]
  | cons c host ih =>
    have hc : ¬(c = '/') := fun he => h (by simp [he])
    simp only [List.cons_append, splitAtSlash]
    rw [if_neg hc]
    simp only [List.append_eq]
    rw [ih (fun hm => h (List.mem_cons_of_mem c hm))]

/-- `replace(/^http/, 'ws')` on `scheme ++ tail` when the scheme has at
least four characters: the replacement happens inside the scheme. -/
theorem replaceLeadingHttp_append (scheme tail : List Char)
    (h : 4 ≤ scheme.length) :
    replaceLeadingHttp (scheme ++ tail)
      = (if scheme.take 4 = "http".toList
         then 'w' :: 's' :: scheme.drop 4 else scheme) ++ tail := by
  unfold replaceLeadingHttp
  rw [List.take_append_of_le_length h, List.drop_append_of_le_length h]
  by_cases hc : scheme.take 4 = "http".toList
  · rw [if_pos hc, if_pos hc]; simp
  · rw [if_neg hc, if_neg hc]

/-- `replace(/^http/, 'ws')` is the identity when the scheme is shorter
than four characters: the anchored match would have to cover the `:`. -/
theorem replaceLeadingHttp_short (scheme tail0 : List Char)
    (hlen : scheme.length < 4) :
    replaceLeadingHttp (scheme ++ ':' :: tail0) = scheme ++ ':' :: tail0 := by
  have hcond : ¬((scheme ++ ':' :: tail0).take 4 = "http".toList) := by
    intro hEq
    have hmem : ':' ∈ (scheme ++ ':' :: tail0).take 4 := by
      rw [List.take_append_eq_append_take, List.take_of_length_le (Nat.le_of_lt hlen)]
      rw [show 4 - scheme.length = (3 - scheme.length) + 1 from by omega,
        List.take_succ_cons]
      exact List.mem_append_right _ (List.mem_cons_self _ _)
    rw [hEq] at hmem
    exact absurd hmem (by decide)
  unfold replaceLeadingHttp
  rw [if_neg hcond]

/-- A step never modifies the stored URL: `this.url` is assigned only
in the constructor. -/
theorem client_url_step {D : Type} (w : World D) (e : Event D) :
    (step w e).client.url = w.client.url := by
  cases e with
  | callSubscribe r u => rfl
  | handshakeResolve j sid =>
    simp only [step]
    cases h : w.pendings[j]? <;> simp
  | handshakeReject j =>
    simp only [step]
    cases h : w.pendings[j]? <;> simp <;> split <;> rfl
  | connOpen i =>
    simp only [step]
    cases h : w.sessions[i]? <;> simp <;> split <;> rfl
  | connClose i =>
    simp only [step, handleClose]
    cases h : w.sessions[i]? <;> simp [scheduleReconnect] <;>
      (repeat' split) <;> rfl
  | connError i =>
    simp only [step]
    cases h : w.sessions[i]? <;> simp <;> (repeat' split) <;> rfl
  | timerFire tid =>
    simp only [step]
    cases h : w.timers.find? (fun t => t.id == tid) <;> simp
  | callNext i =>
    simp only [step]
    cases h : w.sessions[i]? <;> simp
  | callClose i =>
    simp only [step]
    cases h : w.sessions[i]? <;> simp
  | notif i d =>
    simp only [step]
    cases h : w.sessions[i]? <;> simp <;> (repeat' split) <;> rfl
  | protoErr i e =>
    simp only [step]
    cases h : w.sessions[i]? <;> simp <;> (repeat' split) <;> rfl

/-! ## Claim C10 -/

/-- Claim C10: for every url given to the `WebSocketClient`
constructor, the stored endpoint URL is derived by replacing a leading
`http` in the scheme with `ws` (so `http` becomes `ws` and `https`
becomes `wss`) and unconditionally overwriting the pathname with
`/ws`; any path component supplied by the caller is discarded, and
every subscribe call (including reconnects) connects to this
normalized URL.  Stated for well-formed `scheme://host path` URLs
(lower-case scheme and host, no userinfo/query/fragment), where the
embedded URL parser agrees with WHATWG `new URL`. -/
theorem C10_url_normalization
    (scheme host path : List Char) {D : Type}
    (w wt : World D) (e : Event D) (r : Request) (u : StreamOptions D)
    (tid : Nat) (t : TimerM D)
    (hs : scheme ≠ [])
    (hsc : ∀ c ∈ scheme, c.isLower = true ∧ c.isAlpha = true)
    (hhc : ∀ c ∈ host,
      c.isLower = true ∨ c.isDigit = true ∨ c = '.' ∨ c = ':' ∨ c = '-')
    (hp : path = [] ∨ path.take 1 = ['/'])
    (hpc : ∀ c ∈ path, ¬(c = '?') ∧ ¬(c = '#'))
    (ht : wt.timers.find? (fun x => x.id == tid) = some t) :
    wsClientUrl (scheme ++ ':' :: '/' :: '/' :: (host ++ path))
      = some ((if scheme.take 4 = "http".toList
               then 'w' :: 's' :: scheme.drop 4 else scheme)
          ++ ':' :: '/' :: '/' :: (host ++ "/ws".toList))
  ∧ (step w e).client.url = w.client.url
  ∧ (step w (.callSubscribe r u)).log
      = w.log ++ [.subscribeStarted r false w.client.url]
  ∧ (step wt (.timerFire tid)).log
      = wt.log ++ [.subscribeStarted t.request true wt.client.url] := by
  have hcol : ':' ∉ scheme := fun hm => absurd (hsc ':' hm).2 (by decide)
  have hslash : '/' ∉ host := fun hm => by
    have hh := hhc '/' hm
    revert hh; decide
  refine ⟨?_, client_url_step w e, rfl, ?_⟩
  · by_cases hlen : 4 ≤ scheme.length
    · unfold wsClientUrl
      rw [replaceLeadingHttp_append scheme _ hlen]
      by_cases hc : scheme.take 4 = "http".toList
      · rw [if_pos hc]
        have hcol2 : ':' ∉ 'w' :: 's' :: scheme.drop 4 := by
          intro hm
          have hm2 : ':' = 'w' ∨ ':' = 's' ∨ ':' ∈ scheme.drop 4 := by
            simpa using hm
          rcases hm2 with h1 | h1 | h1
          · exact absurd h1 (by decide)
          · exact absurd h1 (by decide)
          · exact hcol (List.drop_subset 4 scheme h1)
        rw [splitAtSchemeSep_append _ _ hcol2]
        simp only
        rw [splitAtSlash_append host path hslash hp]
      · rw [if_neg hc]
        rw [splitAtSchemeSep_append _ _ hcol]
        simp only
        rw [splitAtSlash_append host path hslash hp]
    · have hlen2 : scheme.length < 4 := by omega
      have hc : ¬(scheme.take 4 = "http".toList) := by
        intro hEq
        have hlc := congrArg List.length hEq
        simp [List.length_take] at hlc
        omega
      unfold wsClientUrl
      rw [replaceLeadingHttp_short _ _ hlen2]
      rw [splitAtSchemeSep_append _ _ hcol]
      simp only
      rw [splitAtSlash_append host path hslash hp]
      rw [if_neg hc]
  · simp [step, ht]

/-- Witness for C10: the full statement instantiated at
`http://localhost:8648/rpc`, with every hypothesis discharged. -/
theorem C10_url_normalization_witness :
    (("http".toList : List Char) ≠ []
      ∧ (∀ c ∈ "http".toList, c.isLower = true ∧ c.isAlpha = true)
      ∧ (∀ c ∈ "localhost:8648".toList,
          c.isLower = true ∨ c.isDigit = true ∨ c = '.' ∨ c = ':' ∨ c = '-')
      ∧ (("/rpc".toList : List Char) = [] ∨ ("/rpc".toList).take 1 = ['/'])
      ∧ (∀ c ∈ "/rpc".toList, ¬(c = '?') ∧ ¬(c = '#'))
      ∧ wtC10.timers.find? (fun x => x.id == 0) = some tC10)
  ∧ wsClientUrl "http://localhost:8648/rpc".toList
      = some "ws://localhost:8648/ws".toList
  ∧ (step (initWorld [] : World Nat) (.connOpen 0)).client.url
      = (initWorld [] : World Nat).client.url
  ∧ (step (initWorld [] : World Nat) (.callSubscribe rC10 uC10)).log
      = (initWorld [] : World Nat).log
        ++ [.subscribeStarted rC10 false (initWorld [] : World Nat).client.url]
  ∧ (step wtC10 (.timerFire 0)).log
      = wtC10.log ++ [.subscribeStarted tC10.request true wtC10.client.url] := by
  have h := C10_url_normalization "http".toList "localhost:8648".toList
    "/rpc".toList (initWorld []) wtC10 (.connOpen 0) rC10 uC10 0 tC10
    (by decide) (by decide) (by decide) (by decide) (by decide) rfl
  exact ⟨⟨by decide, by decide, by decide, by decide, by decide, rfl⟩,
    h.1, h.2.1, h.2.2.1, h.2.2.2⟩

/-! ## Shared concrete fixtures -/

/-- A resolved handshake wires a new session holding the pending
subscribe's request, options, url and the node-assigned id. -/
theorem step_resolve_sessions {D : Type} (w : World D) (j sid : Nat)
    (p : PendingSub D) (hp : w.pendings[j]? = some p) :
    (step w (.handshakeResolve j sid)).sessions
      = w.sessions ++
        [{ request := p.request, userOptions := p.userOptions, url := p.url
           subscriptionId := sid, nextCalled := false, closeRequested := false
           closed := false, fnCalls := 0 }] := by
  simp [step, hp]

/-- A resolved handshake clears the explicitly-closed flag and resets
the retry counter (lines 102-103). -/
theorem step_resolve_client {D : Type} (w : World D) (j sid : Nat)
    (p : PendingSub D) (hp : w.pendings[j]? = some p) :
    (step w (.handshakeResolve j sid)).client
      = { w.client with explicitlyClosed := false, retriesCount := 0 } := by
  simp [step, hp]

/-- `Subscription.close()` marks the session's client close-requested. -/
theorem step_callClose_sessions {D : Type} (w : World D) (i : Nat)
    (s : Session D) (hs : w.sessions[i]? = some s) :
    (step w (.callClose i)).sessions
      = w.sessions.set i { s with closeRequested := true } := by
  simp [step, hs]

/-- The timer callback appends a new pending subscribe carrying the
captured request and options verbatim. -/
theorem step_timerFire_pendings {D : Type} (w : World D) (tid : Nat)
    (t : TimerM D) (ht : w.timers.find? (fun x => x.id == tid) = some t) :
    (step w (.timerFire tid)).pendings
      = w.pendings ++ [⟨t.request, t.userOptions, true, w.client.url⟩] := by
  simp [step, ht]

/-- The timer callback does not touch the wired sessions. -/
theorem step_timerFire_sessions {D : Type} (w : World D) (tid : Nat)
    (t : TimerM D) (ht : w.timers.find? (fun x => x.id == tid) = some t) :
    (step w (.timerFire tid)).sessions = w.sessions := by
  simp [step, ht]

/-! ## Claim C1 -/

/-- While `this.explicitlyClosed` is set, the close handler only marks
the session closed and `isOpen := false`: it schedules nothing, fires
no callback and leaves the retry counter alone. -/
theorem handleClose_explicitlyClosed {D : Type} (w : World D) (j : Nat)
    (h : w.client.explicitlyClosed = true) :
    (handleClose w j).timers = w.timers
  ∧ (handleClose w j).log = w.log
  ∧ (handleClose w j).client.explicitlyClosed = true
  ∧ (handleClose w j).client.retriesCount = w.client.retriesCount := by
  unfold handleClose
  cases hj : w.sessions[j]? with
  | none => exact ⟨rfl, rfl, h, rfl⟩
  | some s =>
    by_cases hc : s.closed <;> simp [hc, h]

/-- The timer callback (lines 167-175) re-invokes `subscribe` with the
captured request, unconditionally: it never consults the
explicitly-closed flag. -/
theorem step_timerFire_log {D : Type} (w : World D) (tid : Nat) (t : TimerM D)
    (ht : w.timers.find? (fun x => x.id == tid) = some t) :
    (step w (.timerFire tid)).log
      = w.log ++ [.subscribeStarted t.request true w.client.url] := by
  simp [step, ht]

/-- Claim C1 (amended): `close()` sets the explicitly-closed flag (and
requests the transport close), but it does not cancel a pending
reconnect timer, and the timer callback re-invokes `subscribe`
unconditionally: a timer already pending when `close()` is called
still fires and starts a reconnect subscribe afterwards.  What does
hold is that a close event processed while the flag is still set
schedules no new reconnect and fires no callback. -/
theorem C1_close_cancels_no_timer {D : Type} (w : World D) (i j tid : Nat)
    (s : Session D) (t : TimerM D)
    (hs : w.sessions[i]? = some s)
    (ht : w.timers.find? (fun x => x.id == tid) = some t) :
    ((step w (.callClose i)).client.explicitlyClosed = true)
  ∧ ((step w (.callClose i)).timers = w.timers)
  ∧ ((step (step w (.callClose i)) (.timerFire tid)).log
      = w.log ++ [.closeCalled i, .subscribeStarted t.request true w.client.url])
  ∧ ((step (step w (.callClose i)) (.connClose j)).timers = w.timers)
  ∧ ((step (step w (.callClose i)) (.connClose j)).log
      = w.log ++ [.closeCalled i]) := by
  have hw1f : (step w (.callClose i)).client.explicitlyClosed = true := by
    simp [step, hs]
  have hw1t : (step w (.callClose i)).timers = w.timers := by
    simp [step, hs]
  have hw1l : (step w (.callClose i)).log = w.log ++ [.closeCalled i] := by
    simp [step, hs]
  have hw1u : (step w (.callClose i)).client.url = w.client.url := by
    simp [step, hs]
  refine ⟨hw1f, hw1t, ?_, ?_, ?_⟩
  · rw [step_timerFire_log _ tid t (by rw [hw1t]; exact ht), hw1l, hw1u]
    simp
  · exact ((handleClose_explicitlyClosed _ j hw1f).1).trans hw1t
  · exact ((handleClose_explicitlyClosed _ j hw1f).2.1).trans hw1l

/-- Witness for C1 at a concrete world with one wired session and one
pending reconnect timer. -/
theorem C1_close_cancels_no_timer_witness :
    (wFix1.sessions[0]? = some sessEnabled
      ∧ wFix1.timers.find? (fun x => x.id == 0) = some ⟨0, 1000, reqA, optEnabled⟩)
  ∧ ((step wFix1 (.callClose 0)).client.explicitlyClosed = true)
  ∧ ((step wFix1 (.callClose 0)).timers = wFix1.timers)
  ∧ ((step (step wFix1 (.callClose 0)) (.timerFire 0)).log
      = wFix1.log ++ [.closeCalled 0, .subscribeStarted reqA true wFix1.client.url])
  ∧ ((step (step wFix1 (.callClose 0)) (.connClose 1)).timers = wFix1.timers)
  ∧ ((step (step wFix1 (.callClose 0)) (.connClose 1)).log
      = wFix1.log ++ [.closeCalled 0]) := by
  have h := C1_close_cancels_no_timer wFix1 0 1 0 sessEnabled
    ⟨0, 1000, reqA, optEnabled⟩ rfl rfl
  exact ⟨⟨rfl, rfl⟩, h.1, h.2.1, h.2.2.1, h.2.2.2.1, h.2.2.2.2⟩

/-- Counterexample to claim C1 as stated: after `close()` is called
during a pending reconnect delay, the explicitly-closed flag is set,
yet the pending reconnect timer is still there (not cancelled), and
when it fires it executes a new reconnect subscribe — so a reconnect
attempt is both scheduled and executed after `close()`. -/
theorem C1_close_then_timer_fires_cex :
    (run (initWorld [] : World Nat) evsC1).client.explicitlyClosed = true
  ∧ (run (initWorld [] : World Nat) evsC1).timers.length = 1
  ∧ ((run (initWorld [] : World Nat) (evsC1 ++ [.timerFire 0])).log.countP
      Action.isReconnectSubscribe) = 1 := by
  exact ⟨by decide, by decide, by decide⟩

/-! ## Claim C7 -/

/-- Every event other than a successful handshake resolution preserves
a set explicitly-closed flag: only line 102
(`this.explicitlyClosed = false`) ever clears it. -/
theorem explicitlyClosed_step_of_not_resolve {D : Type} (w : World D)
    (e : Event D)
    (hflag : w.client.explicitlyClosed = true)
    (hne : ∀ j sid, e ≠ .handshakeResolve j sid) :
    (step w e).client.explicitlyClosed = true := by
  cases e with
  | handshakeResolve j sid => exact absurd rfl (hne j sid)
  | connClose i => exact (handleClose_explicitlyClosed w i hflag).2.2.1
  | callSubscribe r u => exact hflag
  | handshakeReject j =>
    simp only [step]
    cases hj : w.pendings[j]? <;> simp [hflag] <;> (repeat' split) <;> simp [hflag]
  | connOpen i =>
    simp only [step]
    cases hj : w.sessions[i]? <;> simp [hflag] <;> (repeat' split) <;> simp [hflag]
  | connError i =>
    simp only [step]
    cases hj : w.sessions[i]? <;> simp [hflag] <;> (repeat' split) <;> simp [hflag]
  | timerFire tid =>
    simp only [step]
    cases hj : w.timers.find? (fun t => t.id == tid) <;> simp [hflag]
  | callNext i =>
    simp only [step]
    cases hj : w.sessions[i]? <;> simp [hflag]
  | callClose i =>
    simp only [step]
    cases hj : w.sessions[i]? <;> simp [hflag]
  | notif i d =>
    simp only [step]
    cases hj : w.sessions[i]? <;> simp [hflag] <;> (repeat' split) <;> simp [hflag]
  | protoErr i e2 =>
    simp only [step]
    cases hj : w.sessions[i]? <;> simp [hflag] <;> (repeat' split) <;> simp [hflag]

/-- Claim C7 (amended): `close()` sets the explicitly-closed flag, and
while it stays set no event changes it except a successful subscribe
handshake: line 102 unconditionally clears the (client-shared) flag on
every handshake resolution — including one from a later `subscribe`
call on the same client — after which reconnection for a previously
closed session becomes possible again. -/
theorem C7_flag_lifecycle {D : Type} (w : World D) (i j sid : Nat)
    (s : Session D) (p : PendingSub D) (e : Event D)
    (hs : w.sessions[i]? = some s)
    (hp : w.pendings[j]? = some p)
    (hflag : w.client.explicitlyClosed = true)
    (hne : ∀ j2 sid2, e ≠ .handshakeResolve j2 sid2) :
    ((step w (.callClose i)).client.explicitlyClosed = true)
  ∧ ((step w (.handshakeResolve j sid)).client.explicitlyClosed = false)
  ∧ ((step w e).client.explicitlyClosed = true) :=
  ⟨by simp [step, hs], by simp [step, hp],
    explicitlyClosed_step_of_not_resolve w e hflag hne⟩

/-- Witness for C7 at `wFix7`, taking the non-resolve event to be an
unexpected close. -/
theorem C7_flag_lifecycle_witness :
    (wFix7.sessions[0]? = some sessEnabled
      ∧ wFix7.pendings[0]? = some ⟨reqB, optEnabled, false, []⟩
      ∧ wFix7.client.explicitlyClosed = true)
  ∧ ((step wFix7 (.callClose 0)).client.explicitlyClosed = true)
  ∧ ((step wFix7 (.handshakeResolve 0 9)).client.explicitlyClosed = false)
  ∧ ((step wFix7 (.connClose 0)).client.explicitlyClosed = true) := by
  have h := C7_flag_lifecycle wFix7 0 0 9 sessEnabled ⟨reqB, optEnabled, false, []⟩
    (.connClose 0) rfl rfl rfl (fun j2 sid2 h2 => Event.noConfusion h2)
  exact ⟨⟨rfl, rfl, rfl⟩, h.1, h.2.1, h.2.2⟩

/-- Counterexample to claim C7 as stated: after `close()` (one
`closeCalled` in the log) a later `subscribe` handshake clears the
explicitly-closed flag, and a reconnect is then scheduled from the
explicitly closed session's close event. -/
theorem C7_flag_cleared_cex :
    (run (initWorld [] : World Nat) evsC7).client.explicitlyClosed = false
  ∧ ((run (initWorld [] : World Nat) evsC7).log.countP Action.isCloseCalledA) = 1
  ∧ ((run (initWorld [] : World Nat) evsC7).log.countP Action.isSchedule) = 1 :=
  ⟨by decide, by decide, by decide⟩

/-! ## Claim C9 -/

/-- A close event processed while the flag is set still marks the
session's transport closed — the event is real, only the reconnect
reaction is suppressed. -/
theorem handleClose_marks_closed {D : Type} (w : World D) (j : Nat)
    (s : Session D)
    (hj : w.sessions[j]? = some s) (hc : s.closed = false)
    (hflag : w.client.explicitlyClosed = true) :
    ((handleClose w j).sessions[j]?).map (·.closed) = some true := by
  have hlt : j < w.sessions.length := (List.getElem?_eq_some.mp hj).1
  unfold handleClose
  simp [hj, hc, hflag, List.getElem?_set_eq_of_lt _ hlt]

/-- Claim C9 (amended): the explicitly-closed flag, retry counter,
open flag and timer handle are fields of the `WebSocketClient` object
itself (lines 53-60), shared by every subscribe call on that client:
`close()` on one session's handle sets the client-wide flag, after
which a different session's unexpected close schedules no reconnect,
fires no callback and leaves the shared retry counter unchanged, even
though its transport really closed. -/
theorem C9_client_state_shared {D : Type} (w : World D) (i j : Nat)
    (si sj : Session D)
    (hi : w.sessions[i]? = some si)
    (hj : w.sessions[j]? = some sj)
    (hne : i ≠ j)
    (hcj : sj.closed = false) :
    ((step w (.callClose i)).client.explicitlyClosed = true)
  ∧ ((step (step w (.callClose i)) (.connClose j)).timers
      = (step w (.callClose i)).timers)
  ∧ ((step (step w (.callClose i)) (.connClose j)).log
      = (step w (.callClose i)).log)
  ∧ ((step (step w (.callClose i)) (.connClose j)).client.retriesCount
      = (step w (.callClose i)).client.retriesCount)
  ∧ (((step (step w (.callClose i)) (.connClose j)).sessions[j]?).map (·.closed)
      = some true) := by
  have hw1f : (step w (.callClose i)).client.explicitlyClosed = true := by
    simp [step, hi]
  have hw1sj : (step w (.callClose i)).sessions[j]? = some sj := by
    simp [step, hi, List.getElem?_set_ne hne, hj]
  exact ⟨hw1f, (handleClose_explicitlyClosed _ j hw1f).1,
    (handleClose_explicitlyClosed _ j hw1f).2.1,
    (handleClose_explicitlyClosed _ j hw1f).2.2.2,
    handleClose_marks_closed _ j sj hw1sj hcj hw1f⟩

/-- Witness for C9 at `wFix9` with sessions 0 and 1. -/
theorem C9_client_state_shared_witness :
    (wFix9.sessions[0]? = some sessEnabled
      ∧ wFix9.sessions[1]? = some sessEnabledB
      ∧ (0 : Nat) ≠ 1
      ∧ sessEnabledB.closed = false)
  ∧ ((step wFix9 (.callClose 0)).client.explicitlyClosed = true)
  ∧ ((step (step wFix9 (.callClose 0)) (.connClose 1)).timers
      = (step wFix9 (.callClose 0)).timers)
  ∧ ((step (step wFix9 (.callClose 0)) (.connClose 1)).log
      = (step wFix9 (.callClose 0)).log)
  ∧ ((step (step wFix9 (.callClose 0)) (.connClose 1)).client.retriesCount
      = (step wFix9 (.callClose 0)).client.retriesCount)
  ∧ (((step (step wFix9 (.callClose 0)) (.connClose 1)).sessions[1]?).map (·.closed)
      = some true) := by
  have h := C9_client_state_shared wFix9 0 1 sessEnabled sessEnabledB
    rfl rfl (by decide) rfl
  exact ⟨⟨rfl, rfl, by decide, rfl⟩, h.1, h.2.1, h.2.2.1, h.2.2.2.1, h.2.2.2.2⟩

/-- Counterexample to claim C9 as stated: with `close()` called on
session 0's handle, session 1's unexpected close schedules no
reconnect (no pending timer), while without that `close()` the very
same close schedules one — so one session's `close()` does affect the
reconnect behaviour of the other. -/
theorem C9_cross_session_interference_cex :
    (run (initWorld [] : World Nat) evsC9close).timers.length = 0
  ∧ (run (initWorld [] : World Nat) evsC9noclose).timers.length = 1 :=
  ⟨by decide, by decide⟩

/-! ## Claim C2 -/

/-- Claim C2 (amended): on an unexpected close with reconnection
permitted, the timer callback re-invokes `subscribe` with the
original `request` and `userOptions` verbatim, and the resolved
handshake wires a new session with the new node-assigned id — but the
new `Subscription` object is only reachable from the timer callback's
discarded promise: the original handle's `getSubscriptionId` closure
still returns the old captured id, and its `close()` still targets the
old session's client, leaving the new session untouched. -/
theorem C2_reconnect_replays_request {D : Type} (w : World D) (i sid2 : Nat)
    (s : Session D)
    (hs : w.sessions[i]? = some s)
    (hcl : s.closed = false)
    (hflag : w.client.explicitlyClosed = false)
    (har : (mergeOptions s.userOptions).autoReconnect = .enabled)
    (htim : w.timers = [])
    (hpen : w.pendings = [])
    (hrt : w.client.reconnectTimer = none) :
    ((step (step w (.connClose i)) (.timerFire w.nextTimerId)).pendings
      = [⟨s.request, s.userOptions, true, w.client.url⟩])
  ∧ (getSubscriptionId
      (step (step (step w (.connClose i)) (.timerFire w.nextTimerId))
        (.handshakeResolve 0 sid2)) i
      = some s.subscriptionId)
  ∧ (((step (step (step w (.connClose i)) (.timerFire w.nextTimerId))
        (.handshakeResolve 0 sid2)).sessions[w.sessions.length]?).map
          (·.subscriptionId)
      = some sid2)
  ∧ (((step (step (step w (.connClose i)) (.timerFire w.nextTimerId))
        (.handshakeResolve 0 sid2)).sessions[w.sessions.length]?).map (·.request)
      = some s.request)
  ∧ (((step (step (step w (.connClose i)) (.timerFire w.nextTimerId))
        (.handshakeResolve 0 sid2)).sessions[w.sessions.length]?).map
          (·.userOptions)
      = some s.userOptions)
  ∧ ((step (step (step (step w (.connClose i)) (.timerFire w.nextTimerId))
        (.handshakeResolve 0 sid2)) (.callClose i)).sessions[w.sessions.length]?
      = (step (step (step w (.connClose i)) (.timerFire w.nextTimerId))
          (.handshakeResolve 0 sid2)).sessions[w.sessions.length]?) := by
  have hlt : i < w.sessions.length := (List.getElem?_eq_some.mp hs).1
  have hne : i ≠ w.sessions.length := Nat.ne_of_lt hlt
  have h1t : (handleClose w i).timers
      = [⟨w.nextTimerId, 1000, s.request, s.userOptions⟩] := by
    simp [handleClose, scheduleReconnect, hs, hcl, hflag, har,
      reconnectSettingsOf, htim, hrt]
  have h1p : (handleClose w i).pendings = [] := by
    simp [handleClose, scheduleReconnect, hs, hcl, hflag, har,
      reconnectSettingsOf, hpen, hrt]
  have h1u : (handleClose w i).client.url = w.client.url :=
    client_url_step w (.connClose i)
  have h1s : (handleClose w i).sessions
      = w.sessions.set i { s with closed := true } := by
    simp [handleClose, scheduleReconnect, hs, hcl, hflag, har,
      reconnectSettingsOf, hrt]
  have hfind : (handleClose w i).timers.find? (fun x => x.id == w.nextTimerId)
      = some ⟨w.nextTimerId, 1000, s.request, s.userOptions⟩ := by
    rw [h1t]; simp
  have h2p : (step (handleClose w i) (.timerFire w.nextTimerId)).pendings
      = [⟨s.request, s.userOptions, true, w.client.url⟩] := by
    rw [step_timerFire_pendings _ _ _ hfind, h1p, h1u]
    simp
  have h2s : (step (handleClose w i) (.timerFire w.nextTimerId)).sessions
      = w.sessions.set i { s with closed := true } := by
    rw [step_timerFire_sessions _ _ _ hfind, h1s]
  have h2p0 : (step (handleClose w i) (.timerFire w.nextTimerId)).pendings[0]?
      = some ⟨s.request, s.userOptions, true, w.client.url⟩ := by
    rw [h2p]; rfl
  have h3s : (step (step (handleClose w i) (.timerFire w.nextTimerId))
        (.handshakeResolve 0 sid2)).sessions
      = (w.sessions.set i { s with closed := true })
        ++ [{ request := s.request, userOptions := s.userOptions
              url := w.client.url, subscriptionId := sid2, nextCalled := false
              closeRequested := false, closed := false, fnCalls := 0 }] := by
    rw [step_resolve_sessions _ 0 sid2 _ h2p0, h2s]
  have h3i : (step (step (handleClose w i) (.timerFire w.nextTimerId))
        (.handshakeResolve 0 sid2)).sessions[i]?
      = some { s with closed := true } := by
    rw [h3s, List.getElem?_append]
    rw [if_pos (by rw [List.length_set]; exact hlt)]
    exact List.getElem?_set_eq_of_lt _ hlt
  have h3n : (step (step (handleClose w i) (.timerFire w.nextTimerId))
        (.handshakeResolve 0 sid2)).sessions[w.sessions.length]?
      = some { request := s.request, userOptions := s.userOptions
               url := w.client.url, subscriptionId := sid2, nextCalled := false
               closeRequested := false, closed := false, fnCalls := 0 } := by
    rw [h3s]
    have hcat := List.getElem?_concat_length
      (w.sessions.set i { s with closed := true })
      ({ request := s.request, userOptions := s.userOptions
         url := w.client.url, subscriptionId := sid2, nextCalled := false
         closeRequested := false, closed := false, fnCalls := 0 } : Session D)
    rwa [List.length_set] at hcat
  have hb : getSubscriptionId
      (step (step (handleClose w i) (.timerFire w.nextTimerId))
        (.handshakeResolve 0 sid2)) i = some s.subscriptionId := by
    unfold getSubscriptionId
    rw [h3i]
    rfl
  have hc1 : ((step (step (handleClose w i) (.timerFire w.nextTimerId))
        (.handshakeResolve 0 sid2)).sessions[w.sessions.length]?).map
          (·.subscriptionId) = some sid2 := by
    rw [h3n]; rfl
  have hd1 : ((step (step (handleClose w i) (.timerFire w.nextTimerId))
        (.handshakeResolve 0 sid2)).sessions[w.sessions.length]?).map
          (·.request) = some s.request := by
    rw [h3n]; rfl
  have hd2 : ((step (step (handleClose w i) (.timerFire w.nextTimerId))
        (.handshakeResolve 0 sid2)).sessions[w.sessions.length]?).map
          (·.userOptions) = some s.userOptions := by
    rw [h3n]; rfl
  have he : (step (step (step (handleClose w i) (.timerFire w.nextTimerId))
        (.handshakeResolve 0 sid2)) (.callClose i)).sessions[w.sessions.length]?
      = (step (step (handleClose w i) (.timerFire w.nextTimerId))
          (.handshakeResolve 0 sid2)).sessions[w.sessions.length]? := by
    rw [step_callClose_sessions _ i _ h3i, List.getElem?_set_ne hne]
  exact ⟨h2p, hb, hc1, hd1, hd2, he⟩

/-- Witness for C2 at `wFix2`: session 0 (id 7) closes unexpectedly,
the reconnect resolves with id 9. -/
theorem C2_reconnect_replays_request_witness :
    (wFix2.sessions[0]? = some sessEnabled
      ∧ sessEnabled.closed = false
      ∧ wFix2.client.explicitlyClosed = false
      ∧ (mergeOptions sessEnabled.userOptions).autoReconnect = .enabled
      ∧ wFix2.timers = []
      ∧ wFix2.pendings = []
      ∧ wFix2.client.reconnectTimer = none)
  ∧ ((step (step wFix2 (.connClose 0)) (.timerFire 5)).pendings
      = [⟨reqA, optEnabled, true, []⟩])
  ∧ (getSubscriptionId
      (step (step (step wFix2 (.connClose 0)) (.timerFire 5))
        (.handshakeResolve 0 9)) 0 = some 7)
  ∧ (((step (step (step wFix2 (.connClose 0)) (.timerFire 5))
        (.handshakeResolve 0 9)).sessions[1]?).map (·.subscriptionId) = some 9)
  ∧ (((step (step (step wFix2 (.connClose 0)) (.timerFire 5))
        (.handshakeResolve 0 9)).sessions[1]?).map (·.request) = some reqA)
  ∧ (((step (step (step wFix2 (.connClose 0)) (.timerFire 5))
        (.handshakeResolve 0 9)).sessions[1]?).map (·.userOptions)
      = some optEnabled)
  ∧ ((step (step (step (step wFix2 (.connClose 0)) (.timerFire 5))
        (.handshakeResolve 0 9)) (.callClose 0)).sessions[1]?
      = (step (step (step wFix2 (.connClose 0)) (.timerFire 5))
          (.handshakeResolve 0 9)).sessions[1]?) := by
  have h := C2_reconnect_replays_request wFix2 0 9 sessEnabled
    rfl rfl rfl rfl rfl rfl rfl
  exact ⟨⟨rfl, rfl, rfl, rfl, rfl, rfl, rfl⟩, h.1, h.2.1, h.2.2.1,
    h.2.2.2.1, h.2.2.2.2.1, h.2.2.2.2.2⟩

/-- Counterexample to claim C2 as stated: after the reconnect, the
original handle's `getSubscriptionId` (session index 0) still returns
the old id 7, not the new node-assigned id 9 (which only the new,
unreachable session carries). -/
theorem C2_old_handle_keeps_old_id_cex :
    getSubscriptionId (run (initWorld [] : World Nat) evsC2) 0 = some 7
  ∧ getSubscriptionId (run (initWorld [] : World Nat) evsC2) 1 = some 9
  ∧ ¬(getSubscriptionId (run (initWorld [] : World Nat) evsC2) 0 = some 9) :=
  ⟨by decide, by decide, by decide⟩

/-! ## Claim C3 -/

/-- Claim C3 (amended): with `retries` a non-negative integer `k`, an
unexpected close permits a reconnect attempt exactly while the
retries-attempted counter is strictly below `k` (incrementing it), and
denies it once the counter has reached `k` (then `onFailed` fires iff
configured) — but the counter is reset to zero by every successful
handshake (line 103) and every `onopen` (line 143), so `k` consecutive
unexpected closes each followed by a successful reconnect never
exhaust the budget: with `retries = 2`, three such closes yield three
attempts and no `onFailed`. -/
theorem C3_retry_bound_and_resets {D : Type} (w : World D) (i j sid : Nat)
    (s : Session D) (ro : ReconnectObj) (k : Int) (p : PendingSub D)
    (hs : w.sessions[i]? = some s)
    (hcl : s.closed = false)
    (hflag : w.client.explicitlyClosed = false)
    (har : (mergeOptions s.userOptions).autoReconnect = .custom ro)
    (hk : ro.retries = some (.num k))
    (hk0 : 0 ≤ k)
    (hp : w.pendings[j]? = some p) :
    ((k ≤ (w.client.retriesCount : Int)) →
      ((step w (.connClose i)).timers = w.timers
        ∧ (step w (.connClose i)).log
            = w.log ++ (if ro.hasOnFailed then [.onFailedCalled i] else [])
        ∧ (step w (.connClose i)).client.retriesCount
            = w.client.retriesCount))
  ∧ (((w.client.retriesCount : Int) < k) →
      ((step w (.connClose i)).client.retriesCount
          = w.client.retriesCount + 1
        ∧ (step w (.connClose i)).log
            = w.log ++ [.reconnectScheduled w.nextTimerId
                (ro.delay.getD 1000) s.request]))
  ∧ ((step w (.handshakeResolve j sid)).client.retriesCount = 0)
  ∧ ((step w (.connOpen i)).client.retriesCount = 0) := by
  refine ⟨?_, ?_, ?_, ?_⟩
  · intro hge
    have hc1 : ¬(k < 0 ∨ (w.client.retriesCount : Int) < k) := by
      rintro (h1 | h1) <;> omega
    by_cases hof : ro.hasOnFailed <;>
      simp [step, handleClose, hs, hcl, hflag, har, reconnectSettingsOf,
        hk, hc1, hof]
  · intro hlt
    have hc1 : k < 0 ∨ (w.client.retriesCount : Int) < k := Or.inr hlt
    simp [step, handleClose, scheduleReconnect, hs, hcl, hflag, har,
      reconnectSettingsOf, hk, hc1]
  · simp [step, hp]
  · simp [step, hs, hcl]

/-- Witness for C3 at `wFix3a` (counter at the bound: deny) and
`wFix3b` (counter below the bound: schedule). -/
theorem C3_retry_bound_and_resets_witness :
    (wFix3a.sessions[0]? = some sessRetries
      ∧ sessRetries.closed = false
      ∧ wFix3a.client.explicitlyClosed = false
      ∧ (mergeOptions sessRetries.userOptions).autoReconnect
          = .custom ⟨some (.num 2), some 10, true⟩
      ∧ wFix3a.pendings[0]? = some ⟨reqB, optEnabled, false, []⟩)
  ∧ ((step wFix3a (.connClose 0)).timers = wFix3a.timers
      ∧ (step wFix3a (.connClose 0)).log = [.onFailedCalled 0]
      ∧ (step wFix3a (.connClose 0)).client.retriesCount = 2)
  ∧ ((step wFix3b (.connClose 0)).client.retriesCount = 1
      ∧ (step wFix3b (.connClose 0)).log = [.reconnectScheduled 0 10 reqA])
  ∧ ((step wFix3a (.handshakeResolve 0 5)).client.retriesCount = 0)
  ∧ ((step wFix3a (.connOpen 0)).client.retriesCount = 0) := by
  have ha := C3_retry_bound_and_resets wFix3a 0 0 5 sessRetries
    ⟨some (.num 2), some 10, true⟩ 2 ⟨reqB, optEnabled, false, []⟩
    rfl rfl rfl rfl rfl (by decide) rfl
  have hb := C3_retry_bound_and_resets wFix3b 0 0 5 sessRetries
    ⟨some (.num 2), some 10, true⟩ 2 ⟨reqB, optEnabled, false, []⟩
    rfl rfl rfl rfl rfl (by decide) rfl
  have ha1 := ha.1 (by decide)
  have hb1 := hb.2.1 (by decide)
  exact ⟨⟨rfl, rfl, rfl, rfl, rfl⟩, ⟨ha1.1, ha1.2.1, ha1.2.2⟩,
    ⟨hb1.1, hb1.2⟩, ha.2.2.1, ha.2.2.2⟩

/-- Counterexample to claim C3 as stated: with `retries = 2` and three
unexpected closes, three reconnects are scheduled and `onFailed` never
fires (the counter was reset to 0 by every successful reconnect
handshake), not "exactly 2 attempts then `onFailed`". -/
theorem C3_three_closes_three_attempts_cex :
    ((run (initWorld [] : World Nat) evsC3).log.countP Action.isSchedule) = 3
  ∧ ((run (initWorld [] : World Nat) evsC3).log.countP Action.isOnFailedA) = 0 :=
  ⟨by decide, by decide⟩

/-! ## Claim C4 -/

/-- Claim C4 (amended): when the reconnect policy denies a retry
(exhaustion), the close handler invokes `onFailed` if it is
configured and otherwise does nothing: `options.onError` is never
invoked on the exhaustion path (it is invoked on unexpected close only
in the branch where `autoReconnect` is disabled altogether). -/
theorem C4_exhaustion_callbacks {D : Type} (w : World D) (i : Nat)
    (s : Session D) (ro : ReconnectObj) (k : Int)
    (hs : w.sessions[i]? = some s)
    (hcl : s.closed = false)
    (hflag : w.client.explicitlyClosed = false)
    (har : (mergeOptions s.userOptions).autoReconnect = .custom ro)
    (hk : ro.retries = some (.num k))
    (hk0 : 0 ≤ k)
    (hge : k ≤ (w.client.retriesCount : Int)) :
    ((step w (.connClose i)).log
        = w.log ++ (if ro.hasOnFailed then [.onFailedCalled i] else []))
  ∧ (ro.hasOnFailed = false → (step w (.connClose i)).log = w.log)
  ∧ (((step w (.connClose i)).log.countP Action.isOnErrorA)
      = w.log.countP Action.isOnErrorA) := by
  have hc1 : ¬(k < 0 ∨ (w.client.retriesCount : Int) < k) := by
    rintro (h1 | h1) <;> omega
  have hmain : (step w (.connClose i)).log
      = w.log ++ (if ro.hasOnFailed then [.onFailedCalled i] else []) := by
    by_cases hof : ro.hasOnFailed <;>
      simp [step, handleClose, hs, hcl, hflag, har, reconnectSettingsOf,
        hk, hc1, hof]
  refine ⟨hmain, ?_, ?_⟩
  · intro hof
    rw [hmain, hof]
    simp
  · rw [hmain]
    by_cases hof : ro.hasOnFailed <;>
      simp [hof, Action.isOnErrorA]

/-- Witness for C4 at `wFix4`: `retries = 0`, no `onFailed`,
`onError` configured — exhaustion logs nothing. -/
theorem C4_exhaustion_callbacks_witness :
    (wFix4.sessions[0]? = some sessRetries0
      ∧ sessRetries0.closed = false
      ∧ wFix4.client.explicitlyClosed = false
      ∧ (mergeOptions sessRetries0.userOptions).autoReconnect
          = .custom ⟨some (.num 0), none, false⟩
      ∧ ((0 : Int) ≤ 0)
      ∧ ((0 : Int) ≤ (wFix4.client.retriesCount : Int)))
  ∧ ((step wFix4 (.connClose 0)).log = wFix4.log)
  ∧ ((step wFix4 (.connClose 0)).log.countP Action.isOnErrorA
      = wFix4.log.countP Action.isOnErrorA) := by
  have h := C4_exhaustion_callbacks wFix4 0 sessRetries0
    ⟨some (.num 0), none, false⟩ 0 rfl rfl rfl rfl rfl (by decide) (by decide)
  exact ⟨⟨rfl, rfl, rfl, rfl, by decide, by decide⟩, h.2.1 rfl, h.2.2⟩

/-- Counterexample to claim C4 as stated: on exhaustion with no
`onFailed` configured, `options.onError` (which was provided) is NOT
invoked either — neither callback fires, although the session's
transport really closed. -/
theorem C4_exhaustion_silent_cex :
    ((run (initWorld [] : World Nat) evsC4).log.countP Action.isOnFailedA) = 0
  ∧ ((run (initWorld [] : World Nat) evsC4).log.countP Action.isOnErrorA) = 0
  ∧ (((run (initWorld [] : World Nat) evsC4).sessions[0]?).map (·.closed)
      = some true)
  ∧ (mergeOptions optRetries0).hasOnError = true :=
  ⟨by decide, by decide, by decide, by decide⟩

/-! ## Claim C5 -/

/-- Claim C5 (amended): for a session with `once = true`, the first
notification accepted by the filter invokes the callback exactly once
and then calls `client.close()` (the session becomes close-requested,
so no later notification invokes the callback again) — but this is
NOT equivalent to caller-initiated close: the explicitly-closed flag
is left unchanged, so the ensuing transport close is handled as an
unexpected close (scheduling a reconnect when `autoReconnect` is
configured). -/
theorem C5_once_closes_without_flag {D : Type} (w : World D) (i : Nat)
    (s : Session D) (f : D → Bool) (d d2 : D)
    (hs : w.sessions[i]? = some s)
    (hn : s.nextCalled = true)
    (hcr : s.closeRequested = false)
    (hcl : s.closed = false)
    (ho : (mergeOptions s.userOptions).once = true)
    (hf : (mergeOptions s.userOptions).filter = some f)
    (hfd : f d = true) :
    ((step w (.notif i d)).log = w.log ++ [.cbResult i d])
  ∧ (((step w (.notif i d)).sessions[i]?).map (·.closeRequested) = some true)
  ∧ ((step w (.notif i d)).client.explicitlyClosed
      = w.client.explicitlyClosed)
  ∧ (step (step w (.notif i d)) (.notif i d2) = step w (.notif i d)) := by
  have hlt : i < w.sessions.length := (List.getElem?_eq_some.mp hs).1
  have h1 : step w (.notif i d)
      = { w with
          log := w.log ++ [.cbResult i d]
          sessions := w.sessions.set i { s with closeRequested := true } } := by
    simp [step, hs, hn, hcr, hcl, hf, hfd, ho]
  refine ⟨?_, ?_, ?_, ?_⟩
  · rw [h1]
  · rw [h1]
    simp [List.getElem?_set_eq_of_lt _ hlt]
  · rw [h1]
  · rw [h1]
    simp [step, List.getElem?_set_eq_of_lt _ hlt]

/-- Witness for C5 at `wFix5`, payloads 42 then 7. -/
theorem C5_once_closes_without_flag_witness :
    (wFix5.sessions[0]? = some sessOnce
      ∧ sessOnce.nextCalled = true
      ∧ sessOnce.closeRequested = false
      ∧ sessOnce.closed = false
      ∧ (mergeOptions sessOnce.userOptions).once = true
      ∧ (mergeOptions sessOnce.userOptions).filter
          = some (fun _ : Nat => true)
      ∧ (fun _ : Nat => true) 42 = true)
  ∧ ((step wFix5 (.notif 0 42)).log = [.cbResult 0 42])
  ∧ (((step wFix5 (.notif 0 42)).sessions[0]?).map (·.closeRequested)
      = some true)
  ∧ ((step wFix5 (.notif 0 42)).client.explicitlyClosed = false)
  ∧ (step (step wFix5 (.notif 0 42)) (.notif 0 7)
      = step wFix5 (.notif 0 42)) := by
  have h := C5_once_closes_without_flag wFix5 0 sessOnce
    (fun _ : Nat => true) 42 7 rfl rfl rfl rfl rfl rfl rfl
  exact ⟨⟨rfl, rfl, rfl, rfl, rfl, rfl, rfl⟩, h.1, h.2.1, h.2.2.1, h.2.2.2⟩

/-- Counterexample to claim C5 as stated: after the once-close the
explicitly-closed flag is still false, and the close event that
follows schedules a reconnect — the close is NOT equivalent to
caller-initiated close and a reconnection IS attempted. The callback
did fire exactly once. -/
theorem C5_once_no_flag_cex :
    (run (initWorld [] : World Nat) evsC5).client.explicitlyClosed = false
  ∧ (run (initWorld [] : World Nat) evsC5).timers.length = 1
  ∧ ((run (initWorld [] : World Nat) evsC5).log.countP
      (Action.isCbResultFor 0)) = 1 :=
  ⟨by decide, by decide, by decide⟩

/-! ## Claim C6 -/

/-- Claim C6: a notification whose payload the configured filter
rejects never reaches the registered callback — the whole world is
unchanged — and with the default accept-all filter (no `filter` in the
user options) every notification delivered to a live session with a
registered callback reaches the callback. -/
theorem C6_filter_gates_callback {D : Type} (w w2 : World D) (i i2 : Nat)
    (s s2 : Session D) (f : D → Bool) (d d2 : D)
    (hs : w.sessions[i]? = some s)
    (hf : (mergeOptions s.userOptions).filter = some f)
    (hfd : f d = false)
    (hs2 : w2.sessions[i2]? = some s2)
    (hfdef : s2.userOptions.filter = none)
    (hn2 : s2.nextCalled = true)
    (hcr2 : s2.closeRequested = false)
    (hcl2 : s2.closed = false) :
    (step w (.notif i d) = w)
  ∧ ((step w2 (.notif i2 d2)).log = w2.log ++ [.cbResult i2 d2]) := by
  constructor
  · by_cases hg : s.nextCalled && !s.closeRequested && !s.closed <;>
      simp [step, hs, hf, hfd, hg]
  · by_cases ho : s2.userOptions.once <;>
      simp [step, hs2, hn2, hcr2, hcl2, mergeOptions, WS_DEFAULT_OPTIONS,
        hfdef, ho]

/-- Witness for C6: payload 5 is rejected by `filterGt10` (world
unchanged); with the default filter payload 20 reaches the callback. -/
theorem C6_filter_gates_callback_witness :
    (wFix6.sessions[0]? = some sessFiltered
      ∧ (mergeOptions sessFiltered.userOptions).filter = some filterGt10
      ∧ filterGt10 5 = false
      ∧ wFix6b.sessions[0]? = some sessNext
      ∧ sessNext.userOptions.filter = none
      ∧ sessNext.nextCalled = true)
  ∧ (step wFix6 (.notif 0 5) = wFix6)
  ∧ ((step wFix6b (.notif 0 20)).log = [.cbResult 0 20]) := by
  have h := C6_filter_gates_callback wFix6 wFix6b 0 0 sessFiltered sessNext
    filterGt10 5 20 rfl rfl (by decide) rfl rfl rfl rfl rfl
  exact ⟨⟨rfl, rfl, by decide, rfl, rfl, rfl⟩, h.1, h.2⟩

/-! ## Claim C8 -/

/-- Claim C8: a transport-level protocol error is forwarded directly
to the registered callback as an error value; the filter is never
consulted (no hypothesis about it), and nothing else changes — in
particular the sessions, timers and client state are untouched, so the
connection is not closed. -/
theorem C8_error_bypasses_filter {D : Type} (w : World D) (i e : Nat)
    (s : Session D)
    (hs : w.sessions[i]? = some s)
    (hn : s.nextCalled = true)
    (hcr : s.closeRequested = false)
    (hcl : s.closed = false) :
    step w (.protoErr i e) = { w with log := w.log ++ [.cbError i e] } := by
  simp [step, hs, hn, hcr, hcl]

/-- Witness for C8 at `wFix6`: the session's filter rejects almost
everything, yet the error 99 is delivered and only the log changes. -/
theorem C8_error_bypasses_filter_witness :
    (wFix6.sessions[0]? = some sessFiltered
      ∧ sessFiltered.nextCalled = true
      ∧ sessFiltered.closeRequested = false
      ∧ sessFiltered.closed = false)
  ∧ step wFix6 (.protoErr 0 99)
      = { wFix6 with log := wFix6.log ++ [.cbError 0 99] } :=
  ⟨⟨rfl, rfl, rfl, rfl⟩,
    C8_error_bypasses_filter wFix6 0 99 sessFiltered rfl rfl rfl rfl⟩

end AlbatrossWS
